import Mathlib

/-!
Shallow embedding of the build task module (`tasks/build.py`): a task runner
that drives static-site builds, selecting one of several site generators
(node script, Jekyll, Hugo, or a plain static move) based on marker files
found in the cloned repository.

Python values are modelled as follows: strings are `String` except where
object identity matters (`PyStr` carries an object id, since the source
compares with `is not`); JSON values are the inductive `Json`; a file that may
be missing is `Option String` (or `Option (Option Json)` when the content must
additionally parse); exceptions are `Except PyErr` or an `Option PyErr`
component; each subprocess invocation is recorded as a command string,
possibly paired with the shell-context stack active around it.
-/

/-- Python exception kinds raised by the modelled paths. -/
inductive PyErr where
  | jsonDecodeError
  | attrError
  | typeError
  | fileExistsError
deriving DecidableEq, Repr

/-- JSON values as returned by a successful `json.load`. -/
inductive Json where
  | obj (fields : List (String × Json))
  | arr (items : List Json)
  | str (s : String)
  | num (n : Int)
  | boolean (b : Bool)
  | null

/-- Contiguous-sublist test on character lists. -/
def listContainsSub (pat : List Char) : List Char → Bool
  | [] => pat.isEmpty
  | c :: rest => pat.isPrefixOf (c :: rest) || listContainsSub pat rest

/-- Python substring test: `pat in s` for strings. -/
def strContains (s pat : String) : Bool :=
  listContainsSub pat.data s.data

/-- Python `d.get(k, default)`: on a dict, look the key up with the default;
on any non-dict value the attribute access raises `AttributeError`. -/
def pyGet (d : Json) (k : String) (default : Json) : Except PyErr Json :=
  match d with
  | .obj fields =>
      match fields.find? (fun p => p.1 == k) with
      | some p => .ok p.2
      | none => .ok default
  | _ => .error .attrError

/-- Python `k in v` for a JSON value `v`: key membership on dicts, element
equality on lists, substring on strings, `TypeError` otherwise. -/
def pyIn (k : String) (v : Json) : Except PyErr Bool :=
  match v with
  | .obj fields => .ok (fields.any (fun p => p.1 == k))
  | .arr items => .ok (items.any (fun j => match j with | .str s => s == k | _ => false))
  | .str s => .ok (strContains s k)
  | _ => .error .typeError

/-- `has_federalist_script` (build.py lines 41-52). The input models the
package.json file: `none` when the file is missing, `some none` when it exists
but `json.load` fails, `some (some j)` when it parses to `j`. The source opens
the file, loads it, and checks `federalist in package_json.get(scripts, {})`;
a load failure or a non-dict access propagates as an exception. -/
def has_federalist_script (package_json_file : Option (Option Json)) : Except PyErr Bool :=
  match package_json_file with
  | some (some package_json) =>
      match pyGet package_json "scripts" (Json.obj []) with
      | .ok scripts => pyIn "federalist" scripts
      | .error e => .error e
  | some none => .error .jsonDecodeError
  | none => .ok false

/-- Shell-context activations used by the tasks (pyinvoke `ctx.prefix` /
`ctx.cd` context managers). `cdClone` is `ctx.cd(CLONE_DIR_PATH)`,
`sourceNvm` is `ctx.prefix(source <NVM_SH_PATH>)`, `sourceRvm` is
`ctx.prefix(source <RVM_PATH>)`, `nvmUse` is `ctx.prefix(nvm use)`. -/
inductive ShellC where
  | sourceNvm
  | sourceRvm
  | nvmUse
  | cdClone
deriving DecidableEq, Repr

/-- `node_context` (build.py lines 83-104): an ExitStack entering, in order,
the nvm sourcing, then `nvm use` only when `.nvmrc` exists, then the
caller-supplied contexts. -/
def node_context (nvmrc_exists : Bool) (more_contexts : List ShellC) : List ShellC :=
  [ShellC.sourceNvm] ++ (if nvmrc_exists then [ShellC.nvmUse] else []) ++ more_contexts

/-- `setup_node` (build.py lines 56-81): the sequence of `ctx.run` calls with
the context stack active around each, as a function of which marker files
exist in the clone directory. -/
def setup_node (nvmrc_exists package_json_exists : Bool) : List (List ShellC × String) :=
  let base : List ShellC := [ShellC.cdClone, ShellC.sourceNvm]
  (if nvmrc_exists then [(base, "nvm install")] else [])
  ++ [(base, "node --version"), (base, "npm --version")]
  ++ (if package_json_exists then [(base ++ [ShellC.nvmUse], "npm install --production")] else [])

/-- `build_env` (build.py lines 106-113): the dict passed as `env=` to the
generator subprocess, as an association list in insertion order. -/
def build_env (branch owner repository site_pfx base_url : String) : List (String × String) :=
  [("BRANCH", branch), ("OWNER", owner), ("REPOSITORY", repository),
   ("SITE_PREFIX", site_pfx), ("BASEURL", base_url)]

/-- Python `f.readline()` on a file whose content is `s`, with the trailing
newline dropped (the source immediately strips it anyway). -/
def pyReadline (s : String) : String :=
  String.mk (s.data.takeWhile (fun c => c != '\n'))

/-- Python whitespace characters removed by `str.strip()`. -/
def pyWhitespace : List Char :=
  [' ', '\t', '\n', '\r', Char.ofNat 11, Char.ofNat 12]

/-- Python `s.strip()`: drop leading and trailing whitespace. -/
def pyStrip (s : String) : String :=
  String.mk
    (((s.data.dropWhile (fun c => pyWhitespace.contains c)).reverse.dropWhile
      (fun c => pyWhitespace.contains c)).reverse)

/-- `setup_ruby` (build.py lines 123-135): the commands run, as a function of
the `.ruby-version` file (`none` when missing, `some content` otherwise).
The install command in the source is the plain string literal
`rvm install \x7bruby_version\x7d` - it is not an f-string, so no
substitution happens. -/
def setup_ruby_cmds (ruby_version_file : Option String) : List String :=
  (match ruby_version_file with
   | some content =>
       let ruby_version := pyStrip (pyReadline content)
       if ruby_version = "" then [] else ["rvm install \x7bruby_version\x7d"]
   | none => [])
  ++ ["ruby -v"]

/-- The list passed to `f.writelines` in `build_jekyll` (build.py lines
142-148). In the source the first element is the adjacent literals
`\n` and the baseurl f-string, which Python concatenates into one string
(there is no comma between them). -/
def writelines_list (base_url branch config : String) : List String :=
  ["\n" ++ ("baseurl: " ++ (base_url ++ "\n")),
   "branch: " ++ (branch ++ "\n"),
   config]

/-- The `_config.yml` content after `build_jekyll` appends (the file is opened
in append mode, so the prior content stays in place and each list element is
written in order after it). -/
def build_jekyll_append (prior base_url branch config : String) : String :=
  (writelines_list base_url branch config).foldl (fun acc line => acc ++ line) prior

/-- The subprocess commands `build_jekyll` issues (build.py lines 150-172), in
order, as a function of whether a Gemfile exists. -/
def jekyllCmds (gemfile_exists : Bool) (site_build_dir : String) : List String :=
  let jekyll_cmd := if gemfile_exists then "bundle exec jekyll" else "jekyll"
  (if gemfile_exists then ["gem install bundler", "bundle install"] else ["gem install jekyll"])
  ++ [jekyll_cmd ++ " -v",
      jekyll_cmd ++ " build --destination " ++ site_build_dir]

/-- Sequential subprocess execution under pyinvoke semantics: `ctx.run` raises
`UnexpectedExit` on a non-zero exit code (default `warn=False`), so execution
stops at the first failing command. Returns the commands actually executed and
the aborting exit code, if any. -/
def runSeq (exitOf : String → Nat) : List String → List String × Option Nat
  | [] => ([], none)
  | c :: rest =>
      if exitOf c = 0 then
        let r := runSeq exitOf rest
        (c :: r.1, r.2)
      else ([c], some (exitOf c))

/-- An HTTP response as `requests.get` returns it: a status code and a body
(the body is what `iter_content` yields, concatenated). -/
structure HttpResponse where
  status : Nat
  body : String
deriving DecidableEq, Repr

/-- What one `install_hugo` invocation does. -/
structure InstallHugoRun where
  requested_url : String
  deb_file_content : String
  commands : List String
deriving DecidableEq, Repr

/-- `install_hugo` (build.py lines 174-184): build the versioned release URL,
fetch it, write the response body to `hugo.deb` in the working directory, and
run `dpkg -i` on it. The source never reads `response.status_code`, so every
field below is computed the same way whatever the status is. -/
def install_hugo (version working_dir : String) (response : HttpResponse) : InstallHugoRun :=
  { requested_url :=
      "https://github.com/gohugoio/hugo/releases/download/v" ++ version
        ++ "/hugo_" ++ version ++ "_Linux-64bit.deb"
  , deb_file_content := response.body
  , commands := ["dpkg -i " ++ (working_dir ++ "/hugo.deb")] }

/-- A Python string object: its value together with its object identity
(`id()`), since `build_static` compares names with `is not`. Distinct
`objId`s model distinct objects, which may still have equal values. -/
structure PyStr where
  val : String
  objId : Nat
deriving DecidableEq, Repr

/-- Python `a is b` on strings: object identity, not value equality. -/
def pyIs (a b : PyStr) : Bool :=
  a.objId == b.objId

/-- The move loop of `build_static` (build.py lines 211-216): the entries of
`os.listdir(CLONE_DIR_PATH)` for which `shutil.move` is attempted. The guard
in the source is `if file is not SITE_BUILD_DIR`, an identity comparison
against the module constant. -/
def build_static_moves (site_build_dir : PyStr) (files : List PyStr) : List PyStr :=
  files.filter (fun file => !(pyIs file site_build_dir))

/-- The `build_static` body (build.py lines 207-216): `os.makedirs` on the
output directory runs first and raises `FileExistsError` when it already
exists (no `exist_ok`), in which case nothing is listed or moved. Returns the
moves attempted and the error, if any. -/
def build_static_run (site_build_dir : PyStr) (output_dir_exists : Bool)
    (files : List PyStr) : List PyStr × Option PyErr :=
  if output_dir_exists then ([], some PyErr.fileExistsError)
  else (build_static_moves site_build_dir files, none)

/-! ## Theorems -/

/-- Claim C1 (code bug). The claim says `build_static` moves each child of the
clone directory into the output directory except the entry whose name equals
the output directory's name. The source guards with `file is not
SITE_BUILD_DIR`, an object-identity comparison: the strings `os.listdir`
returns are fresh objects, never identical to the module constant, so the
entry named like the output directory is moved as well - contradicting the
in-code comment "don't move the _site dir into itself". Here the constant
has object id 0 and the listing holds fresh objects with ids 1..3; the
equal-named entry (id 3) is among the attempted moves. -/
theorem C1_build_static_identity_guard :
    build_static_moves ⟨"_site", 0⟩ [⟨"a.txt", 1⟩, ⟨"b", 2⟩, ⟨"_site", 3⟩]
      = [⟨"a.txt", 1⟩, ⟨"b", 2⟩, ⟨"_site", 3⟩]
    ∧ (⟨"_site", 3⟩ : PyStr) ∈ build_static_moves ⟨"_site", 0⟩ [⟨"a.txt", 1⟩, ⟨"b", 2⟩, ⟨"_site", 3⟩]
    ∧ PyStr.val ⟨"_site", 3⟩ = PyStr.val ⟨"_site", 0⟩ := by
  decide

/-- Claim C2 counterexample. The claim says `has_federalist_script` returns
false and never raises when the manifest's structure is unparsable; in the
source `json.load` raises on an unparsable file and nothing catches it. -/
theorem C2_counterexample :
    has_federalist_script (some none) = Except.error PyErr.jsonDecodeError
    ∧ has_federalist_script (some none) ≠ Except.ok false :=
  ⟨rfl, fun h => Except.noConfusion h⟩

/-- Claim C2 as amended: `has_federalist_script` returns false without raising
when the manifest is missing; it raises (propagates the JSON decode error)
when the manifest exists but is unparsable; on a parsed object manifest with
no scripts entry it returns false, and with a scripts object it returns true
exactly when that object binds the key "federalist". -/
theorem C2_has_federalist_script_amended :
    has_federalist_script none = Except.ok false
    ∧ has_federalist_script (some none) = Except.error PyErr.jsonDecodeError
    ∧ (∀ fields : List (String × Json),
        fields.find? (fun p => p.1 == "scripts") = none →
        has_federalist_script (some (some (Json.obj fields))) = Except.ok false)
    ∧ (∀ (fields scripts : List (String × Json)),
        fields.find? (fun p => p.1 == "scripts") = some ("scripts", Json.obj scripts) →
        (has_federalist_script (some (some (Json.obj fields))) = Except.ok true
          ↔ "federalist" ∈ scripts.map Prod.fst)) := by
  refine ⟨rfl, rfl, ?_, ?_⟩
  · intro fields h
    simp [has_federalist_script, pyGet, h, pyIn]
  · intro fields scripts h
    simp [has_federalist_script, pyGet, h, pyIn, List.any_eq_true, List.mem_map]

/-- Witness for C2: the amended theorem applied to a manifest with no scripts
section and to one whose scripts object defines "federalist". -/
theorem C2_witness :
    has_federalist_script (some (some (Json.obj [("name", Json.str "site")]))) = Except.ok false
    ∧ has_federalist_script (some (some (Json.obj
        [("scripts", Json.obj [("federalist", Json.str "webpack")])]))) = Except.ok true := by
  constructor
  · exact C2_has_federalist_script_amended.2.2.1 [("name", Json.str "site")] rfl
  · exact (C2_has_federalist_script_amended.2.2.2
      [("scripts", Json.obj [("federalist", Json.str "webpack")])]
      [("federalist", Json.str "webpack")] rfl).mpr (by simp)

/-- Claim C3 (code bug). The claim says `setup_ruby` runs `rvm install <v>`
with the pinned version substituted in whenever `.ruby-version` has a
non-empty first line. The source's command is the plain string literal
`rvm install \x7bruby_version\x7d` (the f- marker is missing), so the command
actually run is that literal text, never the substituted one - even though
the surrounding code extracts and checks the version and the log line says it
is being used. Evaluated at a pin file whose first line is `2.3.1`. -/
theorem C3_setup_ruby_literal_command :
    setup_ruby_cmds (some "2.3.1\n") = ["rvm install \x7bruby_version\x7d", "ruby -v"]
    ∧ "rvm install 2.3.1" ∉ setup_ruby_cmds (some "2.3.1\n") := by
  decide

/-- Appending a string to another is associative (stated on the data lists). -/
theorem strAppend_assoc (a b c : String) : a ++ b ++ c = a ++ (b ++ c) := by
  apply String.ext
  simp [String.data_append, List.append_assoc]

/-- Claim C4 (confirmed). `build_jekyll` appends to `_config.yml` exactly a
blank line, then `baseurl: <b>` and a newline, then `branch: <r>` and a
newline, then the raw config text verbatim, in that order, after the file's
prior contents (append mode leaves them unchanged). The missing comma between
the first two literals in the source merges them into one written string but
does not change the appended text. -/
theorem C4_build_jekyll_append (prior base_url branch config : String) :
    build_jekyll_append prior base_url branch config
      = prior ++ ("\n" ++ ("baseurl: " ++ (base_url ++ ("\n"
          ++ ("branch: " ++ (branch ++ ("\n" ++ config))))))) := by
  simp [build_jekyll_append, writelines_list, List.foldl, strAppend_assoc]

/-- Execution stops at the first command with a non-zero exit code: the
commands before it all run, it runs and its code is the aborting code, and
nothing after it runs. -/
theorem runSeq_abort (exitOf : String → Nat) (pre : List String) (c : String)
    (post : List String) (hpre : ∀ p ∈ pre, exitOf p = 0) (hc : exitOf c ≠ 0) :
    runSeq exitOf (pre ++ c :: post) = (pre ++ [c], some (exitOf c)) := by
  induction pre with
  | nil => simp [runSeq, hc]
  | cons a as ih =>
      have ha : exitOf a = 0 := hpre a (by simp)
      have := ih (fun p hp => hpre p (by simp [hp]))
      simp [runSeq, ha, this]

/-- Claim C5 (confirmed, for the cited `build_jekyll` sequence). Whenever one
of the commands `build_jekyll` issues exits non-zero (all commands before it
succeeding), the task aborts with that same exit code: the failing command is
the last one executed and no later command runs. -/
theorem C5_subprocess_abort (exitOf : String → Nat) (gemfile_exists : Bool)
    (site_build_dir : String) (pre : List String) (c : String) (post : List String)
    (hsplit : jekyllCmds gemfile_exists site_build_dir = pre ++ c :: post)
    (hpre : ∀ p ∈ pre, exitOf p = 0) (hc : exitOf c ≠ 0) :
    runSeq exitOf (jekyllCmds gemfile_exists site_build_dir)
      = (pre ++ [c], some (exitOf c)) := by
  rw [hsplit]
  exact runSeq_abort exitOf pre c post hpre hc

/-- Witness for C5: with a Gemfile present and `bundle install` exiting 2,
the run stops right after `bundle install` and aborts with code 2. -/
theorem C5_witness :
    runSeq (fun s => if s = "bundle install" then 2 else 0) (jekyllCmds true "_site")
      = (["gem install bundler", "bundle install"], some 2) := by
  have h := C5_subprocess_abort (fun s => if s = "bundle install" then 2 else 0) true "_site"
    ["gem install bundler"] "bundle install"
    ["bundle exec jekyll -v", "bundle exec jekyll build --destination _site"]
    (by decide) (by decide) (by decide)
  simpa using h

/-- Claim C6 (confirmed). `node_context` puts the nvm sourcing first, adds the
`nvm use` activation exactly when `.nvmrc` exists (immediately after the
sourcing), and appends the caller-supplied contexts after; the two composed
contexts differ only by that one activation. -/
theorem C6_node_context (more_contexts : List ShellC) :
    node_context true more_contexts = ShellC.sourceNvm :: ShellC.nvmUse :: more_contexts
    ∧ node_context false more_contexts = ShellC.sourceNvm :: more_contexts := by
  constructor <;> simp [node_context]

/-- Claim C7 (confirmed). The env mapping `build_env` builds and
`build_jekyll` passes to the generator subprocess binds exactly the keys
BRANCH, OWNER, REPOSITORY, SITE_PREFIX and BASEURL to the given values, in
that order, and binds nothing else: looking up any other key (in particular
any ambient variable name) finds no entry. -/
theorem C7_build_env_exact (branch owner repository site_pfx base_url k : String)
    (hk : k ∉ (["BRANCH", "OWNER", "REPOSITORY", "SITE_PREFIX", "BASEURL"] : List String)) :
    (build_env branch owner repository site_pfx base_url).map Prod.fst
        = ["BRANCH", "OWNER", "REPOSITORY", "SITE_PREFIX", "BASEURL"]
    ∧ (build_env branch owner repository site_pfx base_url).lookup "BRANCH" = some branch
    ∧ (build_env branch owner repository site_pfx base_url).lookup "OWNER" = some owner
    ∧ (build_env branch owner repository site_pfx base_url).lookup "REPOSITORY" = some repository
    ∧ (build_env branch owner repository site_pfx base_url).lookup "SITE_PREFIX" = some site_pfx
    ∧ (build_env branch owner repository site_pfx base_url).lookup "BASEURL" = some base_url
    ∧ (build_env branch owner repository site_pfx base_url).lookup k = none := by
  simp only [List.mem_cons, List.not_mem_nil, or_false, not_or] at hk
  obtain ⟨h1, h2, h3, h4, h5⟩ := hk
  have e1 : (k == "BRANCH") = false := beq_eq_false_iff_ne.mpr h1
  have e2 : (k == "OWNER") = false := beq_eq_false_iff_ne.mpr h2
  have e3 : (k == "REPOSITORY") = false := beq_eq_false_iff_ne.mpr h3
  have e4 : (k == "SITE_PREFIX") = false := beq_eq_false_iff_ne.mpr h4
  have e5 : (k == "BASEURL") = false := beq_eq_false_iff_ne.mpr h5
  refine ⟨rfl, rfl, rfl, rfl, rfl, rfl, ?_⟩
  simp [build_env, List.lookup, e1, e2, e3, e4, e5]

/-- Witness for C7: the exact-keys theorem at concrete argument values, with
the ambient variable name HOME looked up and found absent. -/
theorem C7_witness :
    (build_env "main" "me" "repo" "sp" "/b").map Prod.fst
        = ["BRANCH", "OWNER", "REPOSITORY", "SITE_PREFIX", "BASEURL"]
    ∧ (build_env "main" "me" "repo" "sp" "/b").lookup "BRANCH" = some "main"
    ∧ (build_env "main" "me" "repo" "sp" "/b").lookup "OWNER" = some "me"
    ∧ (build_env "main" "me" "repo" "sp" "/b").lookup "REPOSITORY" = some "repo"
    ∧ (build_env "main" "me" "repo" "sp" "/b").lookup "SITE_PREFIX" = some "sp"
    ∧ (build_env "main" "me" "repo" "sp" "/b").lookup "BASEURL" = some "/b"
    ∧ (build_env "main" "me" "repo" "sp" "/b").lookup "HOME" = none :=
  C7_build_env_exact "main" "me" "repo" "sp" "/b" "HOME" (by decide)

/-- Claim C8 (confirmed). If the output directory already exists when the
`build_static` body runs, `os.makedirs` fails first (`FileExistsError`, no
`exist_ok`), so no move is attempted and the clone directory's children are
untouched: the run reports an empty move list together with the error. -/
theorem C8_output_dir_preexists (site_build_dir : PyStr) (files : List PyStr) :
    build_static_run site_build_dir true files = ([], some PyErr.fileExistsError) :=
  rfl

/-- Claim C9 counterexample. The claim says a non-success response for the
release URL makes `install_hugo` abort without installing; in the source the
response status is never inspected: with a 404 response the body ("Not
Found") is written to hugo.deb and the `dpkg -i` install command still runs. -/
theorem C9_counterexample :
    (install_hugo "0.23" "/work" ⟨404, "Not Found"⟩).commands = ["dpkg -i /work/hugo.deb"]
    ∧ (install_hugo "0.23" "/work" ⟨404, "Not Found"⟩).deb_file_content = "Not Found"
    ∧ (404 : Nat) ≠ 200 :=
  ⟨rfl, rfl, by decide⟩

/-- Claim C9 as amended: `install_hugo` never checks the HTTP response
status; for every response, success or failure, it writes the response body
to hugo.deb and proceeds to run the `dpkg -i` install command, so a failed
download by itself does not abort the build before the install step. -/
theorem C9_install_hugo_amended (version working_dir : String) (response : HttpResponse) :
    (install_hugo version working_dir response).commands
        = ["dpkg -i " ++ (working_dir ++ "/hugo.deb")]
    ∧ (install_hugo version working_dir response).deb_file_content = response.body :=
  ⟨rfl, rfl⟩

/-- Claim C10 (confirmed). Whenever package.json exists, `setup_node` wraps
the production install in the `nvm use` activation (on top of the clone-dir
change and the nvm sourcing) even when `.nvmrc` is absent; the `.nvmrc` check
gates only the preceding `nvm install` command. `node_context`, by contrast,
includes `nvm use` only when `.nvmrc` exists (or the caller supplied it). -/
theorem C10_setup_node_nvm_use (nvmrc_exists : Bool) (more_contexts : List ShellC) :
    ([ShellC.cdClone, ShellC.sourceNvm, ShellC.nvmUse], "npm install --production")
        ∈ setup_node nvmrc_exists true
    ∧ ("nvm install" ∈ (setup_node nvmrc_exists true).map Prod.snd ↔ nvmrc_exists = true)
    ∧ (ShellC.nvmUse ∈ node_context nvmrc_exists more_contexts
        ↔ (nvmrc_exists = true ∨ ShellC.nvmUse ∈ more_contexts)) := by
  cases nvmrc_exists <;> refine ⟨by decide, by decide, ?_⟩ <;> simp [node_context]
